import Mathlib

/-!
Shallow embedding of the libxenbe display core:
`src/displayBackend/drm/DrmDetector.cpp` (the DRM device detector) and
`src/displayBackend/DisplayItf.hpp` (the display interface layer).

The detector interacts with the OS through libudev and libdrm.  Those
calls are modelled as an explicit environment: each enumerated udev
entry carries the values the OS calls would return for it (syspath
name, constructed device, devnode, sysnum, the result of `open`, the
result of `drmModeGetResources`), and the top-level environment carries
the success/failure of the setup calls (`udev_new`,
`udev_enumerate_new`, the two match registrations and the scan).  The
embedded functions additionally record, as data, the `open` calls they
make, the file descriptors obtained, and the file descriptors passed to
`drmClose` (the `drmFdGuard` destructor), so that resource-safety
claims can be stated about them.
-/

namespace Drm

/-! ### fcntl flag constants (Linux values, as used by the source) -/

def O_RDWR : Nat := 2

def O_NONBLOCK : Nat := 2048

def O_CLOEXEC : Nat := 524288

/-- Flags of the single `open` call in `isDrmDevice`
(`open(filename, O_RDWR | O_CLOEXEC)`, DrmDetector.cpp line 63). -/
def drmOpenFlags : Nat := O_RDWR ||| O_CLOEXEC

/-! ### C library model -/

/-- Digit run of C `atoi`: consume leading decimal digits, stop at the
first non-digit. -/
def atoiDigits : List Char → Nat → Nat
  | [], acc => acc
  | c :: cs, acc =>
      if c.isDigit then atoiDigits cs (acc * 10 + (c.toNat - 48)) else acc

/-- C whitespace (`isspace` in the "C" locale). -/
def isSpaceC (c : Char) : Bool :=
  c = ' ' || c = '\t' || c = '\n' || c = '\x0b' || c = '\x0c' || c = '\r'

/-- C `atoi`: skip leading whitespace, read an optional sign and a run
of decimal digits; an input with no digits yields 0. -/
def atoi (s : String) : Int :=
  match s.toList.dropWhile (fun c => isSpaceC c) with
  | '-' :: rest => - (atoiDigits rest 0 : Int)
  | '+' :: rest => (atoiDigits rest 0 : Int)
  | rest => (atoiDigits rest 0 : Int)

/-! ### Environment model -/

/-- The fields of `drmModeRes` read by the detector (C `int` counts). -/
structure drmModeRes where
  count_crtcs : Int
  count_connectors : Int
  count_encoders : Int
  deriving Repr, DecidableEq

/-- A udev device as the detector observes it: the values
`udev_device_get_devnode` and `udev_device_get_sysnum` return (NULL
modelled as `none`), the file descriptor `open` would return for its
devnode (negative means failure), and the resource description
`drmModeGetResources` would return on that descriptor (`none` for
NULL). -/
structure udev_device where
  devnode : Option String
  sysnum : Option String
  openResult : Int
  resources : Option drmModeRes
  deriving Repr, DecidableEq

/-- One entry of the udev enumeration list: the syspath
`udev_list_entry_get_name` returns, and the device
`udev_device_new_from_syspath` constructs from it (`none` for NULL in
either role). -/
structure udev_list_entry where
  name : Option String
  device : Option udev_device
  deriving Repr, DecidableEq

/-- Environment of one `detectDrmDevice` run: outcomes of the udev
setup calls and the enumerated entry list.  The `Ret` fields are the C
return values checked with `if (...)`: nonzero means failure. -/
structure UdevEnv where
  udevNewOk : Bool
  enumerateNewOk : Bool
  addMatchSubsystemRet : Int
  addMatchSysnameRet : Int
  scanDevicesRet : Int
  entries : List udev_list_entry
  deriving Repr, DecidableEq

/-! ### The detector -/

/-- Effect of the `drmFdGuard` destructor: `drmClose(mFd)` runs exactly
when `mFd > 0` (DrmDetector.cpp lines 37-43). -/
def guardClose (fd : Int) : List Int :=
  if 0 < fd then [fd] else []

/-- Result of probing one candidate (`isDrmDevice`), with the
externally visible resource actions recorded as data:
`openCalls` lists each `open(path, flags)` invocation, `opened` the
file descriptors successfully obtained, `closed` the descriptors passed
to `drmClose`. -/
structure ProbeResult where
  accepted : Bool
  openCalls : List (String × Nat)
  opened : List Int
  closed : List Int
  deriving Repr, DecidableEq

/-- Embedding of `isDrmDevice` (DrmDetector.cpp lines 53-83).
Returns `false` if devnode or sysnum is NULL or `atoi(sysnum) < 0`;
otherwise opens the devnode (`O_RDWR | O_CLOEXEC`), rejects on open
failure, queries the resources, rejects on NULL resources or on any of
the three counts being `<= 0`, accepts otherwise.  The `drmFdGuard`
destructor runs on every path after the guard is constructed. -/
def isDrmDevice (d : udev_device) : ProbeResult :=
  match d.devnode, d.sysnum with
  | some filename, some sysnum =>
      if atoi sysnum < 0 then
        ⟨false, [], [], []⟩
      else
        let fd := d.openResult
        if fd < 0 then
          ⟨false, [(filename, drmOpenFlags)], [], guardClose fd⟩
        else
          match d.resources with
          | none => ⟨false, [(filename, drmOpenFlags)], [fd], guardClose fd⟩
          | some res =>
              if res.count_crtcs ≤ 0 || res.count_connectors ≤ 0 ||
                 res.count_encoders ≤ 0 then
                ⟨false, [(filename, drmOpenFlags)], [fd], guardClose fd⟩
              else
                ⟨true, [(filename, drmOpenFlags)], [fd], guardClose fd⟩
  | _, _ => ⟨false, [], [], []⟩

/-- The devnode string `detectDrmDevice` returns for an accepted entry
(`udev_device_get_devnode` re-queried at DrmDetector.cpp line 144). -/
def entryDevnode (e : udev_list_entry) : String :=
  match e.device with
  | some d => d.devnode.getD ""
  | none => ""

/-- An entry the enumeration loop accepts: its syspath name is non-NULL,
its device constructs, and `isDrmDevice` returns true on it. -/
def entryAccepted (e : udev_list_entry) : Bool :=
  e.name.isSome &&
    (match e.device with
     | some d => (isDrmDevice d).accepted
     | none => false)

/-- Result of one `detectDrmDevice` run: the returned path (`""` for no
device) together with the recorded resource actions of all probes. -/
structure DetectResult where
  path : String
  opened : List Int
  closed : List Int
  deriving Repr, DecidableEq

/-- The `udev_list_entry_foreach` loop of `detectDrmDevice`
(DrmDetector.cpp lines 124-149): skip entries with a NULL name or a
device that fails to construct; probe the rest with `isDrmDevice`;
return the devnode of the first accepted device, `""` if the list is
exhausted. -/
def detectLoop : List udev_list_entry → DetectResult
  | [] => ⟨"", [], []⟩
  | e :: rest =>
      match e.name with
      | none => detectLoop rest
      | some _ =>
          match e.device with
          | none => detectLoop rest
          | some d =>
              let pr := isDrmDevice d
              if pr.accepted then
                ⟨d.devnode.getD "", pr.opened, pr.closed⟩
              else
                let r := detectLoop rest
                ⟨r.path, pr.opened ++ r.opened, pr.closed ++ r.closed⟩

/-- All five udev setup calls of `detectDrmDevice` succeed. -/
def setupOk (env : UdevEnv) : Bool :=
  env.udevNewOk && env.enumerateNewOk &&
    env.addMatchSubsystemRet == 0 && env.addMatchSysnameRet == 0 &&
    env.scanDevicesRet == 0

/-- Embedding of `detectDrmDevice` (DrmDetector.cpp lines 85-153):
each failed setup call returns `""` at once; otherwise the enumeration
loop runs.  The function is total: every outcome is an ordinary return
value, no exception is modelled because none is raised. -/
def detectDrmDevice (env : UdevEnv) : DetectResult :=
  if !env.udevNewOk then ⟨"", [], []⟩
  else if !env.enumerateNewOk then ⟨"", [], []⟩
  else if env.addMatchSubsystemRet ≠ 0 then ⟨"", [], []⟩
  else if env.addMatchSysnameRet ≠ 0 then ⟨"", [], []⟩
  else if env.scanDevicesRet ≠ 0 then ⟨"", [], []⟩
  else detectLoop env.entries

end Drm

namespace DisplayItf

/-- Embedding of `DisplayItf::Exception` (DisplayItf.hpp lines 44-60):
it stores the construction message `mMsg`. -/
structure Exception where
  mMsg : String
  deriving Repr, DecidableEq

/-- `Exception::what()` returns `mMsg.c_str()`; modelled as the stored
string.  It is total (the C++ declaration is `throw()`). -/
def Exception.what (e : Exception) : String := e.mMsg

/-- `typedef std::vector<uint32_t> GrantRefs` (DisplayItf.hpp line
196): an ordered sequence of unsigned 32-bit grant references. -/
abbrev GrantRefs : Type := List (Fin 4294967296)

/-- Parameter list of the shared-buffer overload
`Display::createDisplayBuffer(uint32_t width, uint32_t height,
uint32_t bpp, uint16_t domId, GrantRefs& refs, bool allocRefs)`
(DisplayItf.hpp lines 250-252).  `refs` is passed by mutable reference
in C++; in the pure model the callee returns the possibly repopulated
sequence, see `CreateSharedDisplayBuffer`. -/
structure SharedBufferParams where
  width : Fin 4294967296
  height : Fin 4294967296
  bpp : Fin 4294967296
  domId : Fin 65536
  refs : GrantRefs
  allocRefs : Bool

/-- Type of the shared-buffer factory method of a concrete `Display`:
it either raises `Exception` or returns a buffer of the backend type
`Buf` together with the updated `GrantRefs` sequence (modelling the
mutable reference the callee populates when `allocRefs` is true). -/
abbrev CreateSharedDisplayBuffer (Buf : Type) : Type :=
  SharedBufferParams → Except Exception (Buf × GrantRefs)

end DisplayItf

namespace Drm

/-- Probe a list entry the way the loop body does: no probe happens when
the name is NULL or the device fails to construct. -/
def entryProbe (e : udev_list_entry) : ProbeResult :=
  match e.name with
  | none => ⟨false, [], [], []⟩
  | some _ =>
      match e.device with
      | some d => isDrmDevice d
      | none => ⟨false, [], [], []⟩

/-! ### Concrete inputs used by the witness theorems -/

def envC1 : UdevEnv :=
  ⟨true, true, 0, 0, 0,
   [⟨some "syspath0", some ⟨some "/dev/dri/card0", some "0", 5, some ⟨0, 1, 1⟩⟩⟩,
    ⟨some "syspath1", some ⟨some "/dev/dri/card1", some "1", 6, some ⟨2, 3, 4⟩⟩⟩]⟩

def devC3 : udev_device := ⟨some "/dev/dri/card0", some "0", -13, none⟩

def goodC3 : udev_device := ⟨some "/dev/dri/card1", some "1", 7, some ⟨1, 1, 1⟩⟩

def envC3 : UdevEnv :=
  ⟨true, true, 0, 0, 0, [⟨some "s0", some devC3⟩, ⟨some "s1", some goodC3⟩]⟩

def devC5 : udev_device := ⟨some "/dev/dri/card0", some "0", 0, none⟩

def devC6 : udev_device := ⟨some "/dev/dri/card0", some "0", 3, some ⟨1, 1, 1⟩⟩

def envC9 : UdevEnv :=
  ⟨true, true, 0, 0, 0,
   [⟨some "s0", some ⟨some "/dev/dri/card0", some "0", 0, some ⟨1, 1, 1⟩⟩⟩]⟩

def envC9w : UdevEnv :=
  ⟨true, true, 0, 0, 0,
   [⟨some "s0", some ⟨some "/dev/dri/card0", some "0", 5, none⟩⟩]⟩

def goodC10 : udev_list_entry :=
  ⟨some "s1", some ⟨some "/dev/dri/card1", some "0", 4, some ⟨1, 1, 1⟩⟩⟩

def envC10 : UdevEnv := ⟨true, true, 0, 0, 0, [⟨none, none⟩, goodC10]⟩

end Drm

def DisplayItf.paramsC8 : DisplayItf.SharedBufferParams :=
  { width := 1024, height := 768, bpp := 32, domId := 1,
    refs := [2, 3, 4], allocRefs := false }


/-! ## Helper lemmas -/

namespace Drm

lemma detectLoop_cons (e : udev_list_entry) (l : List udev_list_entry) :
    detectLoop (e :: l) =
      if entryAccepted e = true then
        ⟨entryDevnode e, (entryProbe e).opened, (entryProbe e).closed⟩
      else
        ⟨(detectLoop l).path, (entryProbe e).opened ++ (detectLoop l).opened,
         (entryProbe e).closed ++ (detectLoop l).closed⟩ := by
  obtain ⟨name, dev⟩ := e
  cases name with
  | none => simp [detectLoop, entryAccepted, entryProbe]
  | some n =>
    cases dev with
    | none => simp [detectLoop, entryAccepted, entryProbe]
    | some d =>
      by_cases hacc : (isDrmDevice d).accepted = true
      · simp [detectLoop, entryAccepted, entryProbe, entryDevnode, hacc]
      · simp [detectLoop, entryAccepted, entryProbe, hacc]

lemma isDrmDevice_fd_spec (d : udev_device) :
    (isDrmDevice d).opened = [] ∧ (isDrmDevice d).closed = [] ∨
      ∃ f, ¬ f < 0 ∧ (isDrmDevice d).opened = [f] ∧
        (isDrmDevice d).closed = guardClose f := by
  obtain ⟨dn, sn, f, rs⟩ := d
  cases dn with
  | none => left; exact ⟨rfl, rfl⟩
  | some fn =>
    cases sn with
    | none => left; exact ⟨rfl, rfl⟩
    | some s =>
      by_cases h1 : atoi s < 0
      · left; constructor <;> simp [isDrmDevice, h1]
      · by_cases h2 : f < 0
        · left; constructor <;> simp [isDrmDevice, h1, h2, guardClose]
          · omega
        · right
          refine ⟨f, h2, ?_, ?_⟩ <;> cases rs with
          | none => simp [isDrmDevice, h1, h2]
          | some r =>
            simp [isDrmDevice, h1, h2]
            split <;> rfl

lemma isDrmDevice_opened_closed (d : udev_device) (fd : Int)
    (ho : fd ∈ (isDrmDevice d).opened) (hpos : 0 < fd) :
    fd ∈ (isDrmDevice d).closed := by
  rcases isDrmDevice_fd_spec d with ⟨h, _⟩ | ⟨f, hf, h, h2⟩
  · rw [h] at ho
    simp at ho
  · rw [h] at ho
    simp at ho
    subst ho
    rw [h2, guardClose, if_pos hpos]
    simp

lemma entryProbe_opened_closed (e : udev_list_entry) (fd : Int)
    (ho : fd ∈ (entryProbe e).opened) (hpos : 0 < fd) :
    fd ∈ (entryProbe e).closed := by
  obtain ⟨name, dev⟩ := e
  cases name with
  | none => simp [entryProbe] at ho
  | some n =>
    cases dev with
    | none => simp [entryProbe] at ho
    | some d => exact isDrmDevice_opened_closed d fd ho hpos

lemma detectLoop_opened_closed (l : List udev_list_entry) (fd : Int)
    (ho : fd ∈ (detectLoop l).opened) (hpos : 0 < fd) :
    fd ∈ (detectLoop l).closed := by
  induction l with
  | nil => simp [detectLoop] at ho
  | cons e rest ih =>
    rw [detectLoop_cons] at ho ⊢
    by_cases hacc : entryAccepted e = true
    · rw [if_pos hacc] at ho ⊢
      exact entryProbe_opened_closed e fd ho hpos
    · rw [if_neg hacc] at ho ⊢
      simp only [List.mem_append] at ho ⊢
      rcases ho with ho | ho
      · exact Or.inl (entryProbe_opened_closed e fd ho hpos)
      · exact Or.inr (ih ho)

lemma detectLoop_path_find (l : List udev_list_entry) :
    (detectLoop l).path =
      (match l.find? entryAccepted with
       | some e => entryDevnode e
       | none => "") := by
  induction l with
  | nil => rfl
  | cons e rest ih =>
    rw [detectLoop_cons]
    by_cases hacc : entryAccepted e = true
    · rw [if_pos hacc, List.find?_cons_of_pos _ hacc]
    · rw [if_neg hacc, List.find?_cons_of_neg]
      · exact ih
      · simp [hacc]

lemma detectLoop_cons_path_rejected (e : udev_list_entry)
    (l : List udev_list_entry) (hrej : entryAccepted e = false) :
    (detectLoop (e :: l)).path = (detectLoop l).path := by
  rw [detectLoop_cons, if_neg (by simp [hrej])]

lemma detectLoop_path_accept_after (l : List udev_list_entry)
    (g : udev_list_entry) (l3 : List udev_list_entry)
    (hl : ∀ e ∈ l, entryAccepted e = false)
    (hg : entryAccepted g = true) :
    (detectLoop (l ++ g :: l3)).path = entryDevnode g := by
  induction l with
  | nil =>
    rw [List.nil_append, detectLoop_cons, if_pos hg]
  | cons a l ih =>
    rw [List.cons_append,
        detectLoop_cons_path_rejected a _ (hl a (List.mem_cons_self a l))]
    exact ih fun e he => hl e (List.mem_cons_of_mem a he)

lemma detectLoop_path_drop_rejected (l1 : List udev_list_entry)
    (e : udev_list_entry) (l2 : List udev_list_entry)
    (hrej : entryAccepted e = false) :
    (detectLoop (l1 ++ e :: l2)).path = (detectLoop (l1 ++ l2)).path := by
  induction l1 with
  | nil =>
    rw [List.nil_append, List.nil_append,
        detectLoop_cons_path_rejected e l2 hrej]
  | cons a l1 ih =>
    rw [List.cons_append, List.cons_append, detectLoop_cons, detectLoop_cons]
    by_cases hacc : entryAccepted a = true
    · rw [if_pos hacc, if_pos hacc]
    · rw [if_neg hacc, if_neg hacc]
      simpa using ih

lemma detectLoop_drop_bad (l1 : List udev_list_entry)
    (e : udev_list_entry) (l2 : List udev_list_entry)
    (hbad : e.name = none ∨ e.device = none) :
    detectLoop (l1 ++ e :: l2) = detectLoop (l1 ++ l2) := by
  induction l1 with
  | nil =>
    rw [List.nil_append, List.nil_append]
    obtain ⟨name, dev⟩ := e
    rcases hbad with h | h <;> simp only at h <;> subst h
    · simp [detectLoop]
    · cases name <;> simp [detectLoop]
  | cons a l1 ih =>
    rw [List.cons_append, List.cons_append, detectLoop_cons, detectLoop_cons]
    by_cases hacc : entryAccepted a = true
    · rw [if_pos hacc, if_pos hacc]
    · rw [if_neg hacc, if_neg hacc, ih]

lemma setupOk_fields (env : UdevEnv) (hs : setupOk env = true) :
    env.udevNewOk = true ∧ env.enumerateNewOk = true ∧
      env.addMatchSubsystemRet = 0 ∧ env.addMatchSysnameRet = 0 ∧
      env.scanDevicesRet = 0 := by
  simp [setupOk] at hs
  tauto

lemma detectDrmDevice_eq_loop (env : UdevEnv) (hs : setupOk env = true) :
    detectDrmDevice env = detectLoop env.entries := by
  obtain ⟨h1, h2, h3, h4, h5⟩ := setupOk_fields env hs
  simp [detectDrmDevice, h1, h2, h3, h4, h5]

lemma isDrmDevice_accepted_iff (d : udev_device) :
    (isDrmDevice d).accepted = true ↔
      (∃ fn, d.devnode = some fn) ∧
      (∃ s, d.sysnum = some s ∧ 0 ≤ atoi s) ∧
      0 ≤ d.openResult ∧
      (∃ r, d.resources = some r ∧ 0 < r.count_crtcs ∧
        0 < r.count_connectors ∧ 0 < r.count_encoders) := by
  obtain ⟨dn, sn, f, rs⟩ := d
  cases dn with
  | none => simp [isDrmDevice]
  | some fn =>
    cases sn with
    | none => simp [isDrmDevice]
    | some s =>
      cases rs with
      | none =>
        by_cases h1 : atoi s < 0
        · simp [isDrmDevice, h1]
        · by_cases h2 : f < 0
          · simp [isDrmDevice, h1, h2]
          · simp [isDrmDevice, h1, h2]
      | some r =>
        by_cases h1 : atoi s < 0
        · simp [isDrmDevice, h1]
        · by_cases h2 : f < 0
          · simp [isDrmDevice, h1, h2]
          · simp [isDrmDevice, h1, h2]
            split <;> simp_all <;> omega

end Drm

/-! ## Claim theorems -/

namespace Drm

lemma detectDrmDevice_setup_fail (env : UdevEnv)
    (hs : ¬ setupOk env = true) :
    detectDrmDevice env = ⟨"", [], []⟩ := by
  by_cases h1 : env.udevNewOk <;>
    by_cases h2 : env.enumerateNewOk <;>
    by_cases h3 : env.addMatchSubsystemRet = 0 <;>
    by_cases h4 : env.addMatchSysnameRet = 0 <;>
    by_cases h5 : env.scanDevicesRet = 0 <;>
    simp_all [detectDrmDevice, setupOk]

lemma isDrmDevice_openCalls_flags (d : udev_device) (c : String × Nat)
    (hc : c ∈ (isDrmDevice d).openCalls) : c.2 = drmOpenFlags := by
  obtain ⟨dn, sn, f, rs⟩ := d
  cases dn with
  | none => simp [isDrmDevice] at hc
  | some fn =>
    cases sn with
    | none => simp [isDrmDevice] at hc
    | some s =>
      by_cases h1 : atoi s < 0
      · simp [isDrmDevice, h1] at hc
      · by_cases h2 : f < 0
        · simp [isDrmDevice, h1, h2] at hc
          rw [hc]
        · cases rs with
          | none =>
            simp [isDrmDevice, h1, h2] at hc
            rw [hc]
          | some r =>
            simp [isDrmDevice, h1, h2] at hc
            split at hc <;> simp at hc <;> rw [hc]

end Drm

namespace Drm

/-- Claim C1: `detectDrmDevice` returns the device-node path of the first
enumerated candidate whose resource description reports at least one
crtc, one connector and one encoder, and the empty string when the
enumeration exhausts with no qualifying candidate. -/
theorem detect_returns_first_qualifying (env : UdevEnv)
    (hs : setupOk env = true) :
    ((detectDrmDevice env).path =
      (match env.entries.find? entryAccepted with
       | some e => entryDevnode e
       | none => "")) ∧
    ∀ d : udev_device, (isDrmDevice d).accepted = true ↔
      (∃ fn, d.devnode = some fn) ∧
      (∃ s, d.sysnum = some s ∧ 0 ≤ atoi s) ∧
      0 ≤ d.openResult ∧
      (∃ r, d.resources = some r ∧ 0 < r.count_crtcs ∧
        0 < r.count_connectors ∧ 0 < r.count_encoders) := by
  constructor
  · rw [detectDrmDevice_eq_loop env hs, detectLoop_path_find]
  · exact isDrmDevice_accepted_iff

/-- Witness for C1 on a concrete two-candidate enumeration. -/
theorem detect_returns_first_qualifying_witness :
    setupOk envC1 = true ∧
    (detectDrmDevice envC1).path =
      (match envC1.entries.find? entryAccepted with
       | some e => entryDevnode e
       | none => "") :=
  ⟨by decide, (detect_returns_first_qualifying envC1 (by decide)).1⟩

/-- Claim C2: `detectDrmDevice` never raises; each failure path (udev
context creation, enumerator creation, match registration, device
scan, or no qualifying device) yields the empty string.  The embedded
function is total, so the theorem states the empty-string outcome on
every failure. -/
theorem detect_never_raises (env : UdevEnv)
    (h : env.udevNewOk = false ∨ env.enumerateNewOk = false ∨
      env.addMatchSubsystemRet ≠ 0 ∨ env.addMatchSysnameRet ≠ 0 ∨
      env.scanDevicesRet ≠ 0 ∨ ∀ e ∈ env.entries, entryAccepted e = false) :
    (detectDrmDevice env).path = "" := by
  by_cases hs : setupOk env = true
  · obtain ⟨h1, h2, h3, h4, h5⟩ := setupOk_fields env hs
    rcases h with h | h | h | h | h | h
    · simp [h] at h1
    · simp [h] at h2
    · exact absurd h3 h
    · exact absurd h4 h
    · exact absurd h5 h
    · rw [detectDrmDevice_eq_loop env hs, detectLoop_path_find,
          List.find?_eq_none.mpr (fun x hx => by simp [h x hx])]
  · rw [detectDrmDevice_setup_fail env hs]

/-- Witness for C2: failed udev context creation yields the empty
string. -/
theorem detect_never_raises_witness :
    (detectDrmDevice ⟨false, true, 0, 0, 0, []⟩).path = "" :=
  detect_never_raises ⟨false, true, 0, 0, 0, []⟩ (Or.inl rfl)

end Drm

namespace Drm

/-- Claim C3: a candidate whose `open` fails is skipped and enumeration
continues: removing it does not change the returned path, and when it
is followed (after non-accepted entries) by a qualifying candidate,
the devnode of that candidate is returned. -/
theorem detect_skips_unopenable (env : UdevEnv) (d : udev_device)
    (l1 : List udev_list_entry) (e : udev_list_entry)
    (l2 : List udev_list_entry)
    (hs : setupOk env = true)
    (hsplit : env.entries = l1 ++ e :: l2)
    (hdev : e.device = some d)
    (hopen : d.openResult < 0) :
    ((detectDrmDevice env).path =
      (detectDrmDevice { env with entries := l1 ++ l2 }).path) ∧
    ∀ g l3, l2 = g :: l3 → entryAccepted g = true →
      (∀ a ∈ l1, entryAccepted a = false) →
      (detectDrmDevice env).path = entryDevnode g := by
  have hacc : (isDrmDevice d).accepted = false := by
    cases hb : (isDrmDevice d).accepted with
    | false => rfl
    | true =>
      exfalso
      obtain ⟨_, _, hge, _⟩ := (isDrmDevice_accepted_iff d).mp hb
      omega
  have hrej : entryAccepted e = false := by
    unfold entryAccepted
    rw [hdev]
    simp [hacc]
  have hs2 : setupOk { env with entries := l1 ++ l2 } = true := hs
  constructor
  · rw [detectDrmDevice_eq_loop env hs, detectDrmDevice_eq_loop _ hs2, hsplit]
    exact detectLoop_path_drop_rejected l1 e l2 hrej
  · intro g l3 hl2 hg hl1
    rw [detectDrmDevice_eq_loop env hs, hsplit, hl2]
    have hsplit2 : l1 ++ e :: g :: l3 = (l1 ++ [e]) ++ g :: l3 := by simp
    rw [hsplit2]
    refine detectLoop_path_accept_after (l1 ++ [e]) g l3 ?_ hg
    intro a ha
    rcases List.mem_append.mp ha with ha | ha
    · exact hl1 a ha
    · simp at ha
      subst ha
      exact hrej

/-- Witness for C3: an unopenable first candidate followed by a
qualifying one; the qualifying devnode is returned. -/
theorem detect_skips_unopenable_witness :
    ((detectDrmDevice envC3).path =
      (detectDrmDevice { envC3 with entries := [⟨some "s1", some goodC3⟩] }).path) ∧
    (detectDrmDevice envC3).path = "/dev/dri/card1" := by
  have h := detect_skips_unopenable envC3 devC3 [] ⟨some "s0", some devC3⟩
    [⟨some "s1", some goodC3⟩] (by decide) rfl rfl (by decide)
  exact ⟨h.1, h.2 ⟨some "s1", some goodC3⟩ [] rfl (by decide) (by decide)⟩

/-- Claim C4: candidate validation: the probe reaches the `open` step
exactly when the device has a devnode and a sysnum whose `atoi` value
is non-negative; an entry lacking a devnode, lacking a sysnum, or with
a negative ordinal is rejected without any `open` call. -/
theorem probe_validation (d : udev_device) :
    ((isDrmDevice d).openCalls ≠ [] ↔
      (∃ fn, d.devnode = some fn) ∧
      (∃ s, d.sysnum = some s ∧ 0 ≤ atoi s)) ∧
    ((d.devnode = none ∨ d.sysnum = none ∨
        (∃ s, d.sysnum = some s ∧ atoi s < 0)) →
      (isDrmDevice d).accepted = false ∧ (isDrmDevice d).openCalls = []) := by
  obtain ⟨dn, sn, f, rs⟩ := d
  cases dn with
  | none =>
    constructor
    · simp [isDrmDevice]
    · intro _
      exact ⟨rfl, rfl⟩
  | some fn =>
    cases sn with
    | none =>
      constructor
      · simp [isDrmDevice]
      · intro _
        exact ⟨rfl, rfl⟩
    | some s =>
      constructor
      · by_cases h1 : atoi s < 0
        · simp [isDrmDevice, h1]
        · by_cases h2 : f < 0
          · simp [isDrmDevice, h1, h2]
            omega
          · cases rs with
            | none =>
              simp [isDrmDevice, h1, h2]
              omega
            | some r =>
              simp [isDrmDevice, h1, h2]
              split <;> simp <;> omega
      · intro hcon
        rcases hcon with h | h | ⟨s2, hs2, hneg⟩
        · simp at h
        · simp at h
        · injection hs2 with hss
          subst hss
          constructor <;> simp [isDrmDevice, hneg]

/-- Witness for C4: a device with no devnode is rejected with no open
call. -/
theorem probe_validation_witness :
    (isDrmDevice ⟨none, some "0", 3, none⟩).accepted = false ∧
    (isDrmDevice ⟨none, some "0", 3, none⟩).openCalls = [] :=
  (probe_validation ⟨none, some "0", 3, none⟩).2 (Or.inl rfl)

/-- Counterexample to C5 as stated: a rejected candidate whose `open`
returned descriptor 0 (no resource description, so it is rejected) is
left open, because the guard destructor only closes strictly positive
descriptors. -/
theorem probe_fd_zero_leak :
    (isDrmDevice devC5).accepted = false ∧
    (0 : Int) ∈ (isDrmDevice devC5).opened ∧
    (0 : Int) ∉ (isDrmDevice devC5).closed := by
  decide

/-- Claim C5 (amended): every strictly positive file descriptor opened
for a rejected candidate is closed before the detector moves on, on
every exit path of the probe. -/
theorem probe_rejected_closes_positive_fds (d : udev_device)
    (_hrej : (isDrmDevice d).accepted = false) (fd : Int)
    (ho : fd ∈ (isDrmDevice d).opened) (hpos : 0 < fd) :
    fd ∈ (isDrmDevice d).closed :=
  isDrmDevice_opened_closed d fd ho hpos

/-- Witness for amended C5: descriptor 3 of a rejected candidate is
closed. -/
theorem probe_rejected_closes_positive_fds_witness :
    (3 : Int) ∈ (isDrmDevice ⟨some "/dev/dri/card0", some "0", 3, none⟩).closed :=
  probe_rejected_closes_positive_fds ⟨some "/dev/dri/card0", some "0", 3, none⟩
    (by decide) 3 (by decide) (by decide)

/-- Counterexample to C6 as stated: the probe opens the candidate with
`O_RDWR | O_CLOEXEC`, which differs from
`O_RDWR | O_NONBLOCK | O_CLOEXEC`; the non-blocking flag is absent. -/
theorem open_flags_counterexample :
    ("/dev/dri/card0", drmOpenFlags) ∈ (isDrmDevice devC6).openCalls ∧
    drmOpenFlags ≠ O_RDWR ||| O_NONBLOCK ||| O_CLOEXEC ∧
    drmOpenFlags &&& O_NONBLOCK = 0 := by
  decide

/-- Claim C6 (amended): every `open` call the probe makes uses exactly
the read-write and close-on-exec flags; the non-blocking flag is not
set. -/
theorem open_flags_rdwr_cloexec (d : udev_device) (c : String × Nat)
    (hc : c ∈ (isDrmDevice d).openCalls) :
    c.2 = O_RDWR ||| O_CLOEXEC ∧ c.2 &&& O_NONBLOCK = 0 := by
  have h2 := isDrmDevice_openCalls_flags d c hc
  rw [h2]
  exact ⟨rfl, by decide⟩

/-- Witness for amended C6 at a concrete accepted candidate. -/
theorem open_flags_rdwr_cloexec_witness :
    (("/dev/dri/card0", drmOpenFlags) : String × Nat).2 = O_RDWR ||| O_CLOEXEC ∧
    (("/dev/dri/card0", drmOpenFlags) : String × Nat).2 &&& O_NONBLOCK = 0 :=
  open_flags_rdwr_cloexec devC6 ("/dev/dri/card0", drmOpenFlags) (by decide)

end Drm

/-- Claim C7: for every message string, an `Exception` constructed from
it returns exactly that message from `what`; `what` is a total
function (the C++ declaration is `throw()`), and `Exception` is the
one error type the display interface layer declares. -/
theorem DisplayItf.Exception_what_eq (msg : String) :
    (DisplayItf.Exception.mk msg).what = msg := rfl

/-- Claim C8: `GrantRefs` is an ordered sequence (a list) of unsigned
32-bit references, and the shared-buffer factory overload takes a
16-bit foreign-domain identifier, the `GrantRefs` sequence (returned
updated, modelling the mutable reference), and the `allocRefs` flag:
every reference of every parameter record is below `2 ^ 32` and every
domain identifier below `2 ^ 16`. -/
theorem DisplayItf.grantRefs_bit_widths (p : DisplayItf.SharedBufferParams)
    (r : Fin 4294967296) (_hr : r ∈ p.refs) :
    r.val < 4294967296 ∧ p.domId.val < 65536 :=
  ⟨r.isLt, p.domId.isLt⟩

/-- Witness for C8 at a concrete parameter record. -/
theorem DisplayItf.grantRefs_bit_widths_witness :
    (2 : Fin 4294967296).val < 4294967296 ∧
    DisplayItf.paramsC8.domId.val < 65536 :=
  DisplayItf.grantRefs_bit_widths DisplayItf.paramsC8 2 (by decide)

namespace Drm

/-- Counterexample to C9 as stated: an accepted candidate whose `open`
returned descriptor 0 is never closed (the guard only closes strictly
positive descriptors), yet `detectDrmDevice` returns its path. -/
theorem detect_fd_zero_leak :
    (detectDrmDevice envC9).path = "/dev/dri/card0" ∧
    (0 : Int) ∈ (detectDrmDevice envC9).opened ∧
    (0 : Int) ∉ (detectDrmDevice envC9).closed := by
  decide

/-- Claim C9 (amended): after `detectDrmDevice` returns, every strictly
positive file descriptor it opened has been closed, on acceptance as
well as rejection; the accepted device reaches the caller as a path
string only. -/
theorem detect_closes_positive_fds (env : UdevEnv) (fd : Int)
    (ho : fd ∈ (detectDrmDevice env).opened) (hpos : 0 < fd) :
    fd ∈ (detectDrmDevice env).closed := by
  by_cases hs : setupOk env = true
  · rw [detectDrmDevice_eq_loop env hs] at ho ⊢
    exact detectLoop_opened_closed env.entries fd ho hpos
  · rw [detectDrmDevice_setup_fail env hs] at ho
    simp at ho

/-- Witness for amended C9: descriptor 5 is closed by the time the
detector returns. -/
theorem detect_closes_positive_fds_witness :
    (5 : Int) ∈ (detectDrmDevice envC9w).closed :=
  detect_closes_positive_fds envC9w 5 (by decide) (by decide)

/-- Claim C10: an enumerated entry whose syspath name is NULL, or whose
udev device fails to construct, is silently skipped: deleting it from
the enumeration leaves the whole result of `detectDrmDevice`
unchanged (same path, same descriptor bookkeeping), so it never ends
enumeration early and never affects which candidate is accepted; the
embedded function is total, so no exception can arise. -/
theorem detect_skips_null_entries (env : UdevEnv)
    (l1 : List udev_list_entry) (e : udev_list_entry)
    (l2 : List udev_list_entry)
    (hsplit : env.entries = l1 ++ e :: l2)
    (hbad : e.name = none ∨ e.device = none) :
    detectDrmDevice env = detectDrmDevice { env with entries := l1 ++ l2 } := by
  by_cases hs : setupOk env = true
  · have hs2 : setupOk { env with entries := l1 ++ l2 } = true := hs
    rw [detectDrmDevice_eq_loop env hs, detectDrmDevice_eq_loop _ hs2, hsplit]
    exact detectLoop_drop_bad l1 e l2 hbad
  · have hs2 : ¬ setupOk { env with entries := l1 ++ l2 } = true := hs
    rw [detectDrmDevice_setup_fail env hs, detectDrmDevice_setup_fail _ hs2]

/-- Witness for C10: dropping a null entry leaves the result
unchanged. -/
theorem detect_skips_null_entries_witness :
    detectDrmDevice envC10 =
      detectDrmDevice { envC10 with entries := [goodC10] } :=
  detect_skips_null_entries envC10 [] ⟨none, none⟩ [goodC10] rfl (Or.inl rfl)

end Drm
